import Mathlib

/-!
Shallow embedding of the token lifecycle and authorization core of the
auth server (`src/services/auth.service.ts`, `src/services/token.service.ts`,
`src/middleware/auth.middleware.ts`, `src/middleware/permission.middleware.ts`).

Conventions:
* Machine time is `Nat` milliseconds (`new Date()`); JWT claims use `Nat`
  seconds (`nowMs / 1000`, integer division as in JS `Math.floor`).
* Fallible operations return `Except String α`; the `String` is the exact
  message of the `Error` thrown by the source.
* A signed JWT string is modelled as a `Token` structure; structural
  equality of `Token` values models string equality of the serialized JWTs
  (the compact serialization is determined by the signed fields and
  vice versa).
* The Credential Store (Prisma) is a `Db` value; each Prisma query is one
  atomic function on `Db`, mirroring §5 of the spec (per-query atomicity,
  no multi-query transaction in the source).
-/

set_option maxRecDepth 4096

deriving instance DecidableEq for Except

namespace AuthCore

/-- Error kinds of the spec taxonomy (spec §7). -/
inductive ErrKind where
  | invalidCredentials
  | accountDisabled
  | emailNotVerified
  | invalidToken
  | expiredToken
  | invalidOrExpiredToken
  | alreadyExists
  | forbidden
  | unauthenticated
deriving DecidableEq, Repr

/-- Modelled from the spec (§7): maps each error message thrown by the
embedded code to the spec's error kind. The `kind` of a failure is what the
caller observes (the boundary maps message/class to a response), so two
failures have the same kind iff they carry the same message here. -/
def errKindOfMessage (m : String) : Option ErrKind :=
  if m = "Invalid email or password" then some .invalidCredentials
  else if m = "Current password is incorrect" then some .invalidCredentials
  else if m = "Your account has been disabled" then some .accountDisabled
  else if m = "User account is disabled" then some .accountDisabled
  else if m = "Please verify your email address before signing in" then some .emailNotVerified
  else if m = "Invalid access token" then some .invalidToken
  else if m = "Invalid refresh token" then some .invalidToken
  else if m = "Invalid token type" then some .invalidToken
  else if m = "Refresh token is invalid or revoked" then some .invalidToken
  else if m = "Token is invalid" then some .invalidToken
  else if m = "Access token expired" then some .expiredToken
  else if m = "Refresh token expired" then some .expiredToken
  else if m = "Access token required" then some .unauthenticated
  else if m = "User not authenticated" then some .unauthenticated
  else none

/-- The `type` claim of a token (`TokenPayload.type` in `auth.types`). -/
inductive TokenType where
  | access
  | refresh
deriving DecidableEq, Repr

/-- `Omit<TokenPayload, 'type'>` — the payload passed to the generators. -/
structure BasePayload where
  userId : String
  email : String
  roles : List String
  permissions : List String
deriving DecidableEq, Repr

/-- The full signed payload (`TokenPayload` in `auth.types`). -/
structure TokenPayload where
  userId : String
  email : String
  roles : List String
  permissions : List String
  type : TokenType
deriving DecidableEq, Repr

/-- A signed JWT: the payload plus everything `jwt.sign` bakes into the
compact serialization (signing secret, registered claims). Structural
equality models string equality of the serialized token. -/
structure Token where
  payload : TokenPayload
  secret : String
  iss : String
  aud : String
  iat : Nat
  exp : Nat
deriving DecidableEq, Repr

/-- The pair returned by `generateTokenPair` (`JWTTokens`). -/
structure JWTTokens where
  accessToken : Token
  refreshToken : Token
deriving DecidableEq, Repr

/-- JWT configuration (`config.jwt` from `environment.ts`): two separate
secrets and the two lifetimes (`expiresIn`, in seconds). -/
structure Config where
  accessSecret : String
  refreshSecret : String
  accessExpiresInSec : Nat
  refreshExpiresInSec : Nat
deriving DecidableEq, Repr

/-- Errors thrown by `jwt.verify` of the `jsonwebtoken` library. -/
inductive JwtError where
  | jsonWebTokenErr
  | tokenExpiredErr
deriving DecidableEq, Repr

/-- `e instanceof jwt.JsonWebTokenError`. In the `jsonwebtoken` library
`TokenExpiredError` is a subclass of `JsonWebTokenError`
(`TokenExpiredError.prototype = Object.create(JsonWebTokenError.prototype)`),
so this is true for every verification error. -/
def JwtError.isInstanceOfJsonWebTokenError : JwtError → Bool
  | _ => true

/-- `e instanceof jwt.TokenExpiredError`. -/
def JwtError.isInstanceOfTokenExpiredError : JwtError → Bool
  | .tokenExpiredErr => true
  | .jsonWebTokenErr => false

/-- `jwt.verify(token, secret, { issuer, audience })`: signature check
(same secret), then `exp` (expired iff `now ≥ exp`), then audience and
issuer, as in `jsonwebtoken`'s `verify.js`. -/
def jwtVerify (t : Token) (secret : String) (nowSec : Nat) : Except JwtError TokenPayload :=
  if t.secret ≠ secret then .error .jsonWebTokenErr
  else if nowSec ≥ t.exp then .error .tokenExpiredErr
  else if t.aud ≠ "auth-client" then .error .jsonWebTokenErr
  else if t.iss ≠ "auth-server" then .error .jsonWebTokenErr
  else .ok t.payload

/-- `jwt.decode(token).exp` — reads the `exp` claim without verifying. -/
def jwtDecodeExp (t : Token) : Nat := t.exp

/-- `TokenService.generateAccessToken`: sign `{...payload, type: 'access'}`
with the access secret, `expiresIn` the access lifetime, fixed `iss`/`aud`. -/
def generateAccessToken (cfg : Config) (payload : BasePayload) (nowSec : Nat) : Token :=
  { payload := { userId := payload.userId, email := payload.email,
                 roles := payload.roles, permissions := payload.permissions,
                 type := TokenType.access }
    secret := cfg.accessSecret
    iss := "auth-server"
    aud := "auth-client"
    iat := nowSec
    exp := nowSec + cfg.accessExpiresInSec }

/-- `TokenService.generateRefreshToken`: sign `{...payload, type: 'refresh'}`
with the refresh secret, `expiresIn` the refresh lifetime. -/
def generateRefreshToken (cfg : Config) (payload : BasePayload) (nowSec : Nat) : Token :=
  { payload := { userId := payload.userId, email := payload.email,
                 roles := payload.roles, permissions := payload.permissions,
                 type := TokenType.refresh }
    secret := cfg.refreshSecret
    iss := "auth-server"
    aud := "auth-client"
    iat := nowSec
    exp := nowSec + cfg.refreshExpiresInSec }

/-- `TokenService.verifyAccessToken`. The catch block tests
`instanceof JsonWebTokenError` first; since `TokenExpiredError` is a
subclass, the `TokenExpiredError` branch is unreachable. An
`AuthenticationError('Invalid token type')` thrown inside the `try` is
rethrown unchanged by the final `throw error`. The last branch below is
unreachable (every `JwtError` is an instance of `JsonWebTokenError`). -/
def verifyAccessToken (cfg : Config) (t : Token) (nowSec : Nat) : Except String TokenPayload :=
  match jwtVerify t cfg.accessSecret nowSec with
  | .ok decoded =>
      if decoded.type ≠ TokenType.access then .error "Invalid token type"
      else .ok decoded
  | .error e =>
      if e.isInstanceOfJsonWebTokenError then .error "Invalid access token"
      else if e.isInstanceOfTokenExpiredError then .error "Access token expired"
      else .error "(rethrown non-JWT error)"

/-- `TokenService.verifyRefreshToken` — same shape with the refresh secret
and `type == 'refresh'`. -/
def verifyRefreshToken (cfg : Config) (t : Token) (nowSec : Nat) : Except String TokenPayload :=
  match jwtVerify t cfg.refreshSecret nowSec with
  | .ok decoded =>
      if decoded.type ≠ TokenType.refresh then .error "Invalid token type"
      else .ok decoded
  | .error e =>
      if e.isInstanceOfJsonWebTokenError then .error "Invalid refresh token"
      else if e.isInstanceOfTokenExpiredError then .error "Refresh token expired"
      else .error "(rethrown non-JWT error)"

/-- A permission row (`Permission` model): unique name plus
`(resource, action)`. -/
structure Permission where
  name : String
  resource : String
  action : String
deriving DecidableEq, Repr

/-- A role row joined with its permissions (`Role` with `include:
permissions`). -/
structure Role where
  name : String
  permissions : List Permission
deriving DecidableEq, Repr

/-- A user row joined with roles (and their permissions) and direct
permissions, as returned by the `include` used in `login`, `refreshTokens`
and `authenticate`. -/
structure User where
  id : String
  email : String
  password : Option String
  isActive : Bool
  emailVerified : Bool
  roles : List Role
  permissions : List Permission
  lastLoginAt : Option Nat
deriving DecidableEq, Repr

/-- A `RefreshToken` row. -/
structure RefreshTokenRow where
  token : Token
  userId : String
  expiresAt : Nat
  isRevoked : Bool
  userAgent : Option String
  ipAddress : Option String
deriving DecidableEq, Repr

/-- A `BlacklistedToken` row. -/
structure BlacklistedTokenRow where
  token : Token
  expiresAt : Nat
deriving DecidableEq, Repr

/-- The Credential Store state (the slice the claims touch). Modelled from
the spec (§3, §6): `RefreshToken.token` is unique (the `create` below
enforces it) and rows reference their owning user. -/
structure Db where
  users : List User
  refreshTokens : List RefreshTokenRow
deriving DecidableEq, Repr

/-- `prisma.refreshToken.create`: inserting a row whose unique `token`
already exists fails (unique-constraint violation). -/
def refreshTokenCreate (db : Db) (row : RefreshTokenRow) : Except String Db :=
  if db.refreshTokens.any (fun r => r.token == row.token) then
    .error "Unique constraint failed on the fields: (token)"
  else
    .ok { db with refreshTokens := db.refreshTokens ++ [row] }

/-- `TokenService.revokeRefreshToken`: `prisma.refreshToken.update({where:
{token}, data: {isRevoked: true}})`, with any storage error swallowed
(logged, not thrown) — so a missing row leaves the store unchanged. -/
def revokeRefreshToken (db : Db) (t : Token) : Db :=
  { db with refreshTokens :=
      db.refreshTokens.map (fun r => if r.token == t then { r with isRevoked := true } else r) }

/-- `TokenService.revokeAllUserTokens`: `updateMany({where: {userId,
isRevoked: false}, data: {isRevoked: true}})`. -/
def revokeAllUserTokens (db : Db) (userId : String) : Db :=
  { db with refreshTokens :=
      db.refreshTokens.map (fun r =>
        if r.userId == userId && r.isRevoked == false then { r with isRevoked := true } else r) }

/-- `prisma.user.update({where: {id}, data: {lastLoginAt: new Date()}})`. -/
def updateLastLogin (db : Db) (userId : String) (nowMs : Nat) : Db :=
  { db with users :=
      db.users.map (fun u => if u.id == userId then { u with lastLoginAt := some nowMs } else u) }

/-- `prisma.user.update({where: {id}, data: {password}})`. -/
def updateUserPassword (db : Db) (userId : String) (hashed : String) : Db :=
  { db with users :=
      db.users.map (fun u => if u.id == userId then { u with password := some hashed } else u) }

/-- Model of `bcrypt.hash`: a deterministic injective stand-in for the
external bcrypt library (salting elided; what matters to the control flow
is only whether `bcrypt.compare` succeeds). -/
def bcryptHash (password : String) : String := "bcrypt$" ++ password

/-- Model of `bcrypt.compare(password, hash)`: succeeds iff `hash` is a
bcrypt hash of `password`. -/
def bcryptCompare (password hash : String) : Bool := hash == bcryptHash password

/-- `email.toLowerCase()`: ASCII lowercasing (the relevant behavior for
the email inputs considered), written structurally over the character list
so it evaluates by kernel reduction. -/
def jsToLowerCase (s : String) : String := String.mk (s.data.map Char.toLower)

/-- `new Set(...)` insertion: JS `Set` keeps the first occurrence. -/
def jsSetInsert (acc : List String) (x : String) : List String :=
  if x ∈ acc then acc else acc ++ [x]

/-- `[...new Set(l)]`: insertion-order deduplication of a JS array. -/
def jsSetArray (l : List String) : List String :=
  l.foldl jsSetInsert []

/-- The `allPermissions` computation of `AuthService.login` (lines 206-211):
`[...new Set([...rolePermissions, ...userPermissions])]`. -/
def loginAllPermissions (user : User) : List String :=
  let rolePermissions := user.roles.flatMap (fun role => role.permissions.map (fun p => p.name))
  let userPermissions := user.permissions.map (fun p => p.name)
  jsSetArray (rolePermissions ++ userPermissions)

/-- The identical `allPermissions` computation inside
`TokenService.refreshTokens` (lines 542-547). -/
def refreshAllPermissions (user : User) : List String :=
  let rolePermissions := user.roles.flatMap (fun role => role.permissions.map (fun p => p.name))
  let userPermissions := user.permissions.map (fun p => p.name)
  jsSetArray (rolePermissions ++ userPermissions)

/-- The identical `allPermissions` computation inside the `hasPermission`
middleware (`permission.middleware.ts` lines 36-40). -/
def middlewareAllPermissions (user : User) : List String :=
  let rolePermissions := user.roles.flatMap (fun role => role.permissions.map (fun p => p.name))
  let userPermissions := user.permissions.map (fun p => p.name)
  jsSetArray (rolePermissions ++ userPermissions)

/-- `hasPermission(...required)` middleware body ("any" semantics): built
over the request's resolved user, `none` meaning no identity attached. -/
def hasPermission (requiredPermissions : List String) (user : Option User) : Except String Unit :=
  match user with
  | none => .error "User not authenticated"
  | some u =>
      let allPermissions := middlewareAllPermissions u
      if requiredPermissions.any (fun p => allPermissions.contains p) then .ok ()
      else .error "Access denied"

/-- `TokenService.storeRefreshToken`: decode the just-minted token, mirror
its `exp` claim (seconds) into `expiresAt` (`new Date(decoded.exp * 1000)`),
insert the row; a storage error is rethrown. -/
def storeRefreshToken (db : Db) (token : Token) (userId : String)
    (userAgent ipAddress : Option String) : Except String Db :=
  let expiresAt := jwtDecodeExp token * 1000
  refreshTokenCreate db
    { token := token, userId := userId, expiresAt := expiresAt,
      isRevoked := false, userAgent := userAgent, ipAddress := ipAddress }

/-- `TokenService.generateTokenPair`: mint both tokens from the same base
payload, persist the refresh token, return the pair. -/
def generateTokenPair (cfg : Config) (db : Db) (userId email : String)
    (roles permissions : List String) (userAgent ipAddress : Option String)
    (nowMs : Nat) : Except String (JWTTokens × Db) :=
  let payload : BasePayload :=
    { userId := userId, email := email, roles := roles, permissions := permissions }
  let accessToken := generateAccessToken cfg payload (nowMs / 1000)
  let refreshToken := generateRefreshToken cfg payload (nowMs / 1000)
  match storeRefreshToken db refreshToken userId userAgent ipAddress with
  | .error e => .error e
  | .ok db1 => .ok ({ accessToken := accessToken, refreshToken := refreshToken }, db1)

/-- The single `prisma.refreshToken.findUnique({where: {token}, include:
{user: {...}}})` read of `refreshTokens`: the row joined with its owning
user (the relation is required — under the store's foreign-key integrity a
found row always joins). -/
def refreshLookup (db : Db) (rt : Token) : Option (RefreshTokenRow × User) :=
  match db.refreshTokens.find? (fun r => r.token == rt) with
  | none => none
  | some r =>
      match db.users.find? (fun u => u.id == r.userId) with
      | none => none
      | some u => some (r, u)

/-- The remainder of `TokenService.refreshTokens` after the read: the
checks run on the snapshot returned by the query (`storedToken`), the
writes (`create` of the new row, `update` of the old) hit the live store.
Splitting the function at the query boundary makes each Prisma query one
atomic step, as it is at runtime. -/
def refreshChecksAndIssue (cfg : Config) (db : Db) (rt : Token)
    (stored : RefreshTokenRow) (user : User) (nowMs : Nat) :
    Except String (JWTTokens × Db) :=
  if stored.isRevoked then .error "Refresh token is invalid or revoked"
  else if nowMs > stored.expiresAt then .error "Refresh token expired"
  else if user.isActive = false then .error "User account is disabled"
  else
    let allPermissions := refreshAllPermissions user
    let roles := user.roles.map (fun role => role.name)
    match generateTokenPair cfg db user.id user.email roles allPermissions
        stored.userAgent stored.ipAddress nowMs with
    | .error e => .error e
    | .ok (newTokens, db1) => .ok (newTokens, revokeRefreshToken db1 rt)

/-- `TokenService.refreshTokens`: verify signature/claims, one read
(row + joined user; `!storedToken` and a missing join both surface as the
absent-row failure), then checks and writes. -/
def refreshTokens (cfg : Config) (db : Db) (rt : Token) (nowMs : Nat) :
    Except String (JWTTokens × Db) :=
  match verifyRefreshToken cfg rt (nowMs / 1000) with
  | .error e => .error e
  | .ok _ =>
      match refreshLookup db rt with
      | none => .error "Refresh token is invalid or revoked"
      | some (stored, user) => refreshChecksAndIssue cfg db rt stored user nowMs

/-- `AuthService.login` (lines 164-230). -/
def login (cfg : Config) (db : Db) (email password : String)
    (userAgent ipAddress : Option String) (nowMs : Nat) :
    Except String ((User × JWTTokens) × Db) :=
  match db.users.find? (fun u => u.email == jsToLowerCase email) with
  | none => .error "Invalid email or password"
  | some user =>
      match user.password with
      | none => .error "Invalid email or password"
      | some hash =>
          if bcryptCompare password hash = false then .error "Invalid email or password"
          else if user.isActive = false then .error "Your account has been disabled"
          else if user.emailVerified = false then
            .error "Please verify your email address before signing in"
          else
            let db1 := updateLastLogin db user.id nowMs
            let allPermissions := loginAllPermissions user
            let roles := user.roles.map (fun role => role.name)
            match generateTokenPair cfg db1 user.id user.email roles allPermissions
                userAgent ipAddress nowMs with
            | .error e => .error e
            | .ok (tokens, db2) => .ok ((user, tokens), db2)

/-- `AuthService.changePassword` (lines 342-382): verify the current
password, persist the new hash, then revoke every refresh token of the
user (the confirmation email is best-effort and elided). -/
def changePassword (db : Db) (userId currentPassword newPassword : String) :
    Except String Db :=
  match db.users.find? (fun u => u.id == userId) with
  | none => .error "User not found"
  | some user =>
      match user.password with
      | none => .error "User not found"
      | some hash =>
          if bcryptCompare currentPassword hash = false then
            .error "Current password is incorrect"
          else
            let db1 := updateUserPassword db userId (bcryptHash newPassword)
            .ok (revokeAllUserTokens db1 userId)

/-- `TokenService.isTokenBlacklisted`: the outcome of
`prisma.blacklistedToken.findUnique` is passed in explicitly
(`Except.error` models the store throwing); on a throw the function
returns `false` (fails open). An existing entry counts only while
`now < expiresAt`. -/
def isTokenBlacklisted (lookupOutcome : Except String (Option BlacklistedTokenRow))
    (nowMs : Nat) : Bool :=
  match lookupOutcome with
  | .error _ => false
  | .ok none => false
  | .ok (some row) => nowMs < row.expiresAt

/-- The `authenticate` middleware (`auth.middleware.ts`): extract the
bearer token (here already parsed, `none` = no/this-shaped header), consult
the blacklist, verify, load the user, check `isActive`. -/
def authenticate (cfg : Config) (db : Db)
    (blacklistLookup : Except String (Option BlacklistedTokenRow))
    (token : Option Token) (nowMs : Nat) : Except String User :=
  match token with
  | none => .error "Access token required"
  | some tok =>
      if isTokenBlacklisted blacklistLookup nowMs then .error "Token is invalid"
      else
        match verifyAccessToken cfg tok (nowMs / 1000) with
        | .error e => .error e
        | .ok payload =>
            match db.users.find? (fun u => u.id == payload.userId) with
            | none => .error "User not found"
            | some user =>
                if user.isActive = false then .error "User account is disabled"
                else .ok user

/-! Concrete store and configuration values used by the witnesses. -/

/-- A permission row. -/
def permRead : Permission := { name := "read", resource := "doc", action := "read" }

/-- A role carrying `permRead`. -/
def roleUser : Role := { name := "user", permissions := [permRead] }

/-- An active, verified user owning role `user`. -/
def userEx : User :=
  { id := "u1", email := "u1@example.com", password := some (bcryptHash "pw1"),
    isActive := true, emailVerified := true, roles := [roleUser], permissions := [],
    lastLoginAt := none }

/-- A disabled user (`isActive = false`). -/
def userDisabledEx : User :=
  { id := "u2", email := "u2@example.com", password := some (bcryptHash "pw2"),
    isActive := false, emailVerified := true, roles := [], permissions := [],
    lastLoginAt := none }

/-- A JWT configuration with the default lifetimes (15m access, 7d refresh). -/
def cfgEx : Config :=
  { accessSecret := "access-secret-0123456789abcdef01234567"
    refreshSecret := "refresh-secret-0123456789abcdef0123456"
    accessExpiresInSec := 900
    refreshExpiresInSec := 604800 }

/-- The base payload of `userEx`'s tokens. -/
def basePayloadEx : BasePayload :=
  { userId := "u1", email := "u1@example.com", roles := ["user"], permissions := ["read"] }

/-- A refresh token minted for `userEx` at time 0. -/
def rtEx : Token := generateRefreshToken cfgEx basePayloadEx 0

/-- The stored row of `rtEx` (as `storeRefreshToken` would create it). -/
def rowEx : RefreshTokenRow :=
  { token := rtEx, userId := "u1", expiresAt := 604800000, isRevoked := false,
    userAgent := none, ipAddress := none }

/-- A store holding `userEx` and the live row of `rtEx`. -/
def dbEx : Db := { users := [userEx], refreshTokens := [rowEx] }

/-- A store holding `userEx` and no refresh tokens. -/
def dbEmptyEx : Db := { users := [userEx], refreshTokens := [] }

/-- The pair `generateTokenPair` mints for `userEx` at time 0. -/
def toksEx0 : JWTTokens :=
  { accessToken := generateAccessToken cfgEx basePayloadEx 0, refreshToken := rtEx }

/-- The pair a successful `refreshTokens` on `dbEx` at 2000ms mints. -/
def toksEx2 : JWTTokens :=
  { accessToken := generateAccessToken cfgEx basePayloadEx 2
    refreshToken := generateRefreshToken cfgEx basePayloadEx 2 }

/-- The row stored for the pair minted at 2000ms. -/
def newRowEx2 : RefreshTokenRow :=
  { token := generateRefreshToken cfgEx basePayloadEx 2, userId := "u1",
    expiresAt := 604802000, isRevoked := false, userAgent := none, ipAddress := none }

/-- The store after `refreshTokens cfgEx dbEx rtEx 2000`: old row revoked,
new row live. -/
def dbEx2 : Db :=
  { users := [userEx], refreshTokens := [{ rowEx with isRevoked := true }, newRowEx2] }

/-- The row stored by racing call A (finishing at 1000ms). -/
def newRowExA : RefreshTokenRow :=
  { token := generateRefreshToken cfgEx basePayloadEx 1, userId := "u1",
    expiresAt := 604801000, isRevoked := false, userAgent := none, ipAddress := none }

/-- The pair racing call A mints at 1000ms. -/
def toksExA : JWTTokens :=
  { accessToken := generateAccessToken cfgEx basePayloadEx 1
    refreshToken := generateRefreshToken cfgEx basePayloadEx 1 }

/-- The store after racing call A's writes. -/
def dbExA : Db :=
  { users := [userEx], refreshTokens := [{ rowEx with isRevoked := true }, newRowExA] }

/-- The store after racing call B's writes on top of `dbExA`. -/
def dbExB : Db :=
  { users := [userEx],
    refreshTokens := [{ rowEx with isRevoked := true }, newRowExA, newRowEx2] }

/-- Base payload for `userDisabledEx`'s refresh token. -/
def basePayloadDisabledEx : BasePayload :=
  { userId := "u2", email := "u2@example.com", roles := [], permissions := [] }

/-- A refresh token of the disabled user, minted at time 0. -/
def rtDisabledEx : Token := generateRefreshToken cfgEx basePayloadDisabledEx 0

/-- The live, unexpired stored row of `rtDisabledEx`. -/
def rowDisabledEx : RefreshTokenRow :=
  { token := rtDisabledEx, userId := "u2", expiresAt := 604800000, isRevoked := false,
    userAgent := none, ipAddress := none }

/-- A store holding the disabled user with a live refresh-token row. -/
def dbDisabledEx : Db := { users := [userDisabledEx], refreshTokens := [rowDisabledEx] }

/-- A store with both users, for the login witness. -/
def dbLoginEx : Db := { users := [userEx, userDisabledEx], refreshTokens := [] }

/-- An access token for `userEx` minted at time 0. -/
def atEx : Token := generateAccessToken cfgEx basePayloadEx 0

/-- A blacklist row for `atEx` through its own expiry. -/
def blRowEx : BlacklistedTokenRow := { token := atEx, expiresAt := 900000 }

/-- The error kind a caller observes on a result: the kind of the thrown
message, `none` on success. -/
def resultKind {α : Type} : Except String α → Option ErrKind
  | .error m => errKindOfMessage m
  | .ok _ => none

/-! Basic lemmas. -/

theorem foldl_jsSetInsert_mem (l : List String) (acc : List String) (a : String) :
    a ∈ l.foldl jsSetInsert acc ↔ a ∈ acc ∨ a ∈ l := by
  induction l generalizing acc with
  | nil => simp
  | cons x xs ih =>
      by_cases hx : x ∈ acc
      · simp only [List.foldl_cons, jsSetInsert, if_pos hx, ih, List.mem_cons]
        constructor
        · tauto
        · rintro (h | rfl | h) <;> tauto
      · simp only [List.foldl_cons, jsSetInsert, if_neg hx, ih, List.mem_append,
          List.mem_singleton, List.mem_cons]
        tauto

theorem foldl_jsSetInsert_nodup (l : List String) (acc : List String) (h : acc.Nodup) :
    (l.foldl jsSetInsert acc).Nodup := by
  induction l generalizing acc with
  | nil => exact h
  | cons x xs ih =>
      simp only [List.foldl_cons]
      apply ih
      by_cases hx : x ∈ acc
      · simpa [jsSetInsert, hx] using h
      · simp only [jsSetInsert, if_neg hx]
        simpa [List.nodup_append] using ⟨h, hx⟩

theorem jsSetArray_mem (l : List String) (a : String) : a ∈ jsSetArray l ↔ a ∈ l := by
  simpa [jsSetArray] using foldl_jsSetInsert_mem l [] a

theorem jsSetArray_nodup (l : List String) : (jsSetArray l).Nodup :=
  foldl_jsSetInsert_nodup l [] List.nodup_nil

theorem jsSetArray_toFinset (l : List String) : (jsSetArray l).toFinset = l.toFinset := by
  ext a
  simp [jsSetArray_mem]

theorem verifyRefreshToken_ok (cfg : Config) (t : Token) (s : Nat) (p : TokenPayload)
    (h : verifyRefreshToken cfg t s = .ok p) :
    t.secret = cfg.refreshSecret ∧ s < t.exp ∧ t.aud = "auth-client" ∧
    t.iss = "auth-server" ∧ t.payload.type = TokenType.refresh ∧ p = t.payload := by
  unfold verifyRefreshToken jwtVerify at h
  by_cases h1 : t.secret = cfg.refreshSecret
  case neg => simp [h1, JwtError.isInstanceOfJsonWebTokenError] at h
  by_cases h2 : s ≥ t.exp
  case pos => simp [h1, h2, JwtError.isInstanceOfJsonWebTokenError] at h
  by_cases h3 : t.aud = "auth-client"
  case neg => simp [h1, h2, h3, JwtError.isInstanceOfJsonWebTokenError] at h
  by_cases h4 : t.iss = "auth-server"
  case neg => simp [h1, h2, h3, h4, JwtError.isInstanceOfJsonWebTokenError] at h
  simp only [h1, h2, h3, h4] at h
  by_cases h5 : t.payload.type = TokenType.refresh
  · simp [h5] at h
    exact ⟨h1, by omega, h3, h4, h5, h.symm⟩
  · simp [h1, h2, h3, h4, h5] at h

theorem verifyAccessToken_ok (cfg : Config) (t : Token) (s : Nat) (p : TokenPayload)
    (h : verifyAccessToken cfg t s = .ok p) :
    t.secret = cfg.accessSecret ∧ s < t.exp ∧ t.aud = "auth-client" ∧
    t.iss = "auth-server" ∧ t.payload.type = TokenType.access ∧ p = t.payload := by
  unfold verifyAccessToken jwtVerify at h
  by_cases h1 : t.secret = cfg.accessSecret
  case neg => simp [h1, JwtError.isInstanceOfJsonWebTokenError] at h
  by_cases h2 : s ≥ t.exp
  case pos => simp [h1, h2, JwtError.isInstanceOfJsonWebTokenError] at h
  by_cases h3 : t.aud = "auth-client"
  case neg => simp [h1, h2, h3, JwtError.isInstanceOfJsonWebTokenError] at h
  by_cases h4 : t.iss = "auth-server"
  case neg => simp [h1, h2, h3, h4, JwtError.isInstanceOfJsonWebTokenError] at h
  simp only [h1, h2, h3, h4] at h
  by_cases h5 : t.payload.type = TokenType.access
  · simp [h5] at h
    exact ⟨h1, by omega, h3, h4, h5, h.symm⟩
  · simp [h1, h2, h3, h4, h5] at h

theorem verifyRefreshToken_error_msg (cfg : Config) (t : Token) (s : Nat) (m : String)
    (h : verifyRefreshToken cfg t s = .error m) :
    m = "Invalid refresh token" ∨ m = "Invalid token type" := by
  unfold verifyRefreshToken at h
  cases hv : jwtVerify t cfg.refreshSecret s with
  | ok p =>
      rw [hv] at h
      by_cases h1 : p.type = TokenType.refresh
      · simp [h1] at h
      · simp [h1] at h
        exact Or.inr h.symm
  | error e =>
      rw [hv] at h
      cases e <;> simp [JwtError.isInstanceOfJsonWebTokenError] at h <;>
        exact Or.inl h.symm

theorem verifyAccessToken_error_msg (cfg : Config) (t : Token) (s : Nat) (m : String)
    (h : verifyAccessToken cfg t s = .error m) :
    m = "Invalid access token" ∨ m = "Invalid token type" := by
  unfold verifyAccessToken at h
  cases hv : jwtVerify t cfg.accessSecret s with
  | ok p =>
      rw [hv] at h
      by_cases h1 : p.type = TokenType.access
      · simp [h1] at h
      · simp [h1] at h
        exact Or.inr h.symm
  | error e =>
      rw [hv] at h
      cases e <;> simp [JwtError.isInstanceOfJsonWebTokenError] at h <;>
        exact Or.inl h.symm

theorem refreshLookup_some (db : Db) (rt : Token) (r : RefreshTokenRow) (u : User)
    (h : refreshLookup db rt = some (r, u)) :
    r ∈ db.refreshTokens ∧ r.token = rt := by
  unfold refreshLookup at h
  cases hf : db.refreshTokens.find? (fun x => x.token == rt) with
  | none => rw [hf] at h; simp at h
  | some x =>
      rw [hf] at h
      dsimp only at h
      cases hg : db.users.find? (fun v => v.id == x.userId) with
      | none => rw [hg] at h; simp at h
      | some v =>
          rw [hg] at h
          simp only [Option.some.injEq, Prod.mk.injEq] at h
          obtain ⟨rfl, rfl⟩ := h
          refine ⟨List.mem_of_find?_eq_some hf, ?_⟩
          have := List.find?_some hf
          simpa using this

theorem revokeRefreshToken_users (db : Db) (t : Token) :
    (revokeRefreshToken db t).users = db.users := rfl

theorem revokeRefreshToken_revokes (db : Db) (t : Token) :
    ∀ r ∈ (revokeRefreshToken db t).refreshTokens, r.token = t → r.isRevoked = true := by
  intro r hr hrt
  simp only [revokeRefreshToken, List.mem_map] at hr
  obtain ⟨x, hx, hfx⟩ := hr
  subst hfx
  by_cases hxt : x.token = t
  · simp [hxt]
  · simp only [beq_iff_eq, if_neg hxt] at hrt ⊢
    exact absurd hrt hxt

theorem revokeAllUserTokens_users (db : Db) (uid : String) :
    (revokeAllUserTokens db uid).users = db.users := rfl

theorem revokeAllUserTokens_revokes (db : Db) (uid : String) :
    ∀ r ∈ (revokeAllUserTokens db uid).refreshTokens, r.userId = uid → r.isRevoked = true := by
  intro r hr hru
  simp only [revokeAllUserTokens, List.mem_map] at hr
  obtain ⟨x, hx, hfx⟩ := hr
  subst hfx
  by_cases hcond : (x.userId == uid && x.isRevoked == false) = true
  · rw [if_pos hcond]
  · rw [if_neg hcond] at hru ⊢
    have hnf : x.isRevoked ≠ false := fun hf => hcond (by simp [hru, hf])
    simpa using hnf

theorem refreshTokens_allRevoked (cfg : Config) (db : Db) (rt : Token) (nowMs : Nat)
    (hrev : ∀ r ∈ db.refreshTokens, r.token = rt → r.isRevoked = true) :
    resultKind (refreshTokens cfg db rt nowMs) = some ErrKind.invalidToken := by
  unfold refreshTokens
  cases hv : verifyRefreshToken cfg rt (nowMs / 1000) with
  | error e =>
      rcases verifyRefreshToken_error_msg cfg rt (nowMs / 1000) e hv with rfl | rfl
      · change resultKind (Except.error "Invalid refresh token") = some ErrKind.invalidToken
        decide
      · change resultKind (Except.error "Invalid token type") = some ErrKind.invalidToken
        decide
  | ok p =>
      dsimp only
      cases hl : refreshLookup db rt with
      | none =>
          change resultKind (Except.error "Refresh token is invalid or revoked") =
            some ErrKind.invalidToken
          decide
      | some pr =>
          obtain ⟨r, u⟩ := pr
          have hmem := refreshLookup_some db rt r u hl
          have hR : r.isRevoked = true := hrev r hmem.1 hmem.2
          dsimp only
          unfold refreshChecksAndIssue
          rw [if_pos hR]
          decide

theorem generateTokenPair_ok (cfg : Config) (db : Db) (userId email : String)
    (roles permissions : List String) (ua ip : Option String) (nowMs : Nat)
    (toks : JWTTokens) (db' : Db)
    (h : generateTokenPair cfg db userId email roles permissions ua ip nowMs =
      .ok (toks, db')) :
    toks = { accessToken :=
               generateAccessToken cfg ⟨userId, email, roles, permissions⟩ (nowMs / 1000)
             refreshToken :=
               generateRefreshToken cfg ⟨userId, email, roles, permissions⟩ (nowMs / 1000) } ∧
    db'.users = db.users ∧
    db'.refreshTokens = db.refreshTokens ++
      [{ token := toks.refreshToken, userId := userId,
         expiresAt := jwtDecodeExp toks.refreshToken * 1000, isRevoked := false,
         userAgent := ua, ipAddress := ip }] := by
  unfold generateTokenPair at h
  dsimp only at h
  cases hs : storeRefreshToken db
      (generateRefreshToken cfg ⟨userId, email, roles, permissions⟩ (nowMs / 1000))
      userId ua ip with
  | error e => rw [hs] at h; exact Except.noConfusion h
  | ok db1 =>
      rw [hs] at h
      dsimp only at h
      simp only [Except.ok.injEq, Prod.mk.injEq] at h
      obtain ⟨rfl, rfl⟩ := h
      unfold storeRefreshToken refreshTokenCreate at hs
      by_cases hc : db.refreshTokens.any (fun r =>
          r.token == generateRefreshToken cfg ⟨userId, email, roles, permissions⟩
            (nowMs / 1000)) = true
      · rw [if_pos hc] at hs
        exact Except.noConfusion hs
      · rw [if_neg hc] at hs
        simp only [Except.ok.injEq] at hs
        subst hs
        exact ⟨rfl, rfl, rfl⟩

theorem changePassword_ok (db : Db) (uid cur new : String) (db' : Db)
    (h : changePassword db uid cur new = .ok db') :
    db' = revokeAllUserTokens (updateUserPassword db uid (bcryptHash new)) uid := by
  unfold changePassword at h
  cases hf : db.users.find? (fun u => u.id == uid) with
  | none => rw [hf] at h; exact Except.noConfusion h
  | some user =>
      rw [hf] at h
      dsimp only at h
      cases hp : user.password with
      | none => rw [hp] at h; exact Except.noConfusion h
      | some hash =>
          rw [hp] at h
          dsimp only at h
          by_cases hcmp : bcryptCompare cur hash = false
          · rw [if_pos hcmp] at h
            exact Except.noConfusion h
          · rw [if_neg hcmp] at h
            simp only [Except.ok.injEq] at h
            exact h.symm

theorem refreshTokens_ok_shape (cfg : Config) (db : Db) (rt : Token) (nowMs : Nat)
    (toks : JWTTokens) (db' : Db)
    (h : refreshTokens cfg db rt nowMs = .ok (toks, db')) :
    ∃ db1, db' = revokeRefreshToken db1 rt := by
  unfold refreshTokens at h
  cases hv : verifyRefreshToken cfg rt (nowMs / 1000) with
  | error e => rw [hv] at h; exact Except.noConfusion h
  | ok p =>
      rw [hv] at h
      dsimp only at h
      cases hl : refreshLookup db rt with
      | none => rw [hl] at h; exact Except.noConfusion h
      | some pr =>
          obtain ⟨r, u⟩ := pr
          rw [hl] at h
          dsimp only at h
          unfold refreshChecksAndIssue at h
          split_ifs at h with h1 h2 h3
          dsimp only at h
          cases hg : generateTokenPair cfg db u.id u.email
              (u.roles.map (fun role => role.name)) (refreshAllPermissions u)
              r.userAgent r.ipAddress nowMs with
          | error e => rw [hg] at h; exact Except.noConfusion h
          | ok pr2 =>
              obtain ⟨nt, db1⟩ := pr2
              rw [hg] at h
              dsimp only at h
              simp only [Except.ok.injEq, Prod.mk.injEq] at h
              exact ⟨db1, h.2.symm⟩

theorem revokeAllUserTokens_token_revoked (db : Db) (uid : String) (t : Token)
    (hbelong : ∀ r ∈ db.refreshTokens, r.token = t → r.userId = uid) :
    ∀ r ∈ (revokeAllUserTokens db uid).refreshTokens, r.token = t → r.isRevoked = true := by
  intro r hr hrt
  simp only [revokeAllUserTokens, List.mem_map] at hr
  obtain ⟨x, hx, hfx⟩ := hr
  subst hfx
  by_cases hcond : (x.userId == uid && x.isRevoked == false) = true
  · rw [if_pos hcond]
  · rw [if_neg hcond] at hrt ⊢
    have huid : x.userId = uid := hbelong x hx hrt
    have hnf : x.isRevoked ≠ false := fun hf => hcond (by simp [huid, hf])
    simpa using hnf

theorem refreshTokens_noRow (cfg : Config) (db : Db) (t : Token) (nowMs : Nat)
    (p : TokenPayload) (hv : verifyRefreshToken cfg t (nowMs / 1000) = .ok p)
    (hl : refreshLookup db t = none) :
    refreshTokens cfg db t nowMs = .error "Refresh token is invalid or revoked" := by
  unfold refreshTokens
  rw [hv]
  dsimp only
  rw [hl]

theorem refreshTokens_checks (cfg : Config) (db : Db) (t : Token) (nowMs : Nat)
    (p : TokenPayload) (stored : RefreshTokenRow) (user : User)
    (hv : verifyRefreshToken cfg t (nowMs / 1000) = .ok p)
    (hl : refreshLookup db t = some (stored, user)) :
    refreshTokens cfg db t nowMs = refreshChecksAndIssue cfg db t stored user nowMs := by
  unfold refreshTokens
  rw [hv]
  dsimp only
  rw [hl]

/-- The two store phases of `refreshTokens`: one atomic read
(`findUnique` with the user join), then checks on the snapshot and the
two writes, exactly as the definition is composed. -/
theorem refreshTokens_phases (cfg : Config) (db : Db) (rt : Token) (nowMs : Nat) :
    refreshTokens cfg db rt nowMs =
      match verifyRefreshToken cfg rt (nowMs / 1000) with
      | .error e => .error e
      | .ok _ =>
          match refreshLookup db rt with
          | none => .error "Refresh token is invalid or revoked"
          | some (stored, user) => refreshChecksAndIssue cfg db rt stored user nowMs := rfl

/-! Claim theorems. -/

/-- C1: Rotation is one-shot. A successful `refreshTokens(t)` leaves every
stored row of `t` revoked, so every subsequent sequential `refreshTokens(t)`
call on the resulting store fails with the `InvalidToken` kind (at any later
time) instead of re-issuing a pair. -/
theorem refresh_rotation_one_shot (cfg : Config) (db : Db) (rt : Token) (nowMs : Nat)
    (toks : JWTTokens) (db' : Db)
    (h : refreshTokens cfg db rt nowMs = .ok (toks, db')) :
    (∀ r ∈ db'.refreshTokens, r.token = rt → r.isRevoked = true) ∧
    ∀ nowMs' : Nat,
      resultKind (refreshTokens cfg db' rt nowMs') = some ErrKind.invalidToken := by
  obtain ⟨db1, rfl⟩ := refreshTokens_ok_shape cfg db rt nowMs toks db' h
  exact ⟨revokeRefreshToken_revokes db1 rt, fun nowMs' =>
    refreshTokens_allRevoked cfg (revokeRefreshToken db1 rt) rt nowMs'
      (revokeRefreshToken_revokes db1 rt)⟩

/-- C1 witness: the concrete rotation on `dbEx` at 2000ms succeeds, and the
replayed token then fails with the `InvalidToken` kind at 3000ms. -/
theorem refresh_rotation_one_shot_witness :
    resultKind (refreshTokens cfgEx dbEx2 rtEx 3000) = some ErrKind.invalidToken :=
  (refresh_rotation_one_shot cfgEx dbEx rtEx 2000 toksEx2 dbEx2 (by decide)).2 3000

/-- C2: the code's read-then-write rotation is not atomic. In the
interleaving where both racing calls perform their `findUnique` read before
either call's writes (call A finishing at 1000ms, call B at 2000ms), both
calls pass verification, both see the same un-revoked snapshot, and both
`refreshChecksAndIssue` runs return `ok` — two pairs are issued for the
same refresh token, contradicting "at most one succeeds". -/
theorem refresh_race_both_succeed :
    verifyRefreshToken cfgEx rtEx (1000 / 1000) = .ok rtEx.payload ∧
    verifyRefreshToken cfgEx rtEx (2000 / 1000) = .ok rtEx.payload ∧
    refreshLookup dbEx rtEx = some (rowEx, userEx) ∧
    refreshChecksAndIssue cfgEx dbEx rtEx rowEx userEx 1000 = .ok (toksExA, dbExA) ∧
    refreshChecksAndIssue cfgEx dbExA rtEx rowEx userEx 2000 = .ok (toksEx2, dbExB) := by
  refine ⟨?_, ?_, ?_, ?_, ?_⟩ <;> decide

/-- C4: the two verification failure kinds are NOT distinguishable for
expired tokens. A well-signed access token (correct secret, issuer,
audience, `type = access`) whose `exp` has passed is rejected with
`"Invalid access token"` — the `InvalidToken` kind — because
`TokenExpiredError` is a subclass of `JsonWebTokenError` and the
`instanceof JsonWebTokenError` branch runs first; the dedicated
expired branch is dead code. Likewise for refresh tokens. -/
theorem verify_expired_misreported :
    atEx.secret = cfgEx.accessSecret ∧
    atEx.iss = "auth-server" ∧
    atEx.aud = "auth-client" ∧
    atEx.payload.type = TokenType.access ∧
    1000 ≥ atEx.exp ∧
    verifyAccessToken cfgEx atEx 1000 = .error "Invalid access token" ∧
    errKindOfMessage "Invalid access token" = some ErrKind.invalidToken ∧
    verifyRefreshToken cfgEx rtEx 604800 = .error "Invalid refresh token" ∧
    errKindOfMessage "Invalid refresh token" = some ErrKind.invalidToken := by
  decide

/-- C3: after signature verification succeeds, `refreshTokens` fails with
the `InvalidToken` kind when no row exists or the row is revoked, with the
`ExpiredToken` kind when the row's `expiresAt` has passed, and with the
`AccountDisabled` kind when the owning user is inactive — the revoked check
first (a revoked *and* expired row reports `InvalidToken`), the expiry
check second (an expired row of a disabled user reports `ExpiredToken`),
the active check third. -/
theorem refresh_error_priority (cfg : Config) (db : Db) (t : Token) (nowMs : Nat)
    (p : TokenPayload) (hv : verifyRefreshToken cfg t (nowMs / 1000) = .ok p) :
    (refreshLookup db t = none →
      refreshTokens cfg db t nowMs = .error "Refresh token is invalid or revoked" ∧
      resultKind (refreshTokens cfg db t nowMs) = some ErrKind.invalidToken) ∧
    ∀ stored user, refreshLookup db t = some (stored, user) →
      (stored.isRevoked = true →
        refreshTokens cfg db t nowMs = .error "Refresh token is invalid or revoked" ∧
        resultKind (refreshTokens cfg db t nowMs) = some ErrKind.invalidToken) ∧
      (stored.isRevoked = false → nowMs > stored.expiresAt →
        refreshTokens cfg db t nowMs = .error "Refresh token expired" ∧
        resultKind (refreshTokens cfg db t nowMs) = some ErrKind.expiredToken) ∧
      (stored.isRevoked = false → ¬ nowMs > stored.expiresAt → user.isActive = false →
        refreshTokens cfg db t nowMs = .error "User account is disabled" ∧
        resultKind (refreshTokens cfg db t nowMs) = some ErrKind.accountDisabled) := by
  constructor
  · intro hl
    have he := refreshTokens_noRow cfg db t nowMs p hv hl
    rw [he]
    exact ⟨rfl, by decide⟩
  · intro stored user hl
    have hc := refreshTokens_checks cfg db t nowMs p stored user hv hl
    refine ⟨?_, ?_, ?_⟩
    · intro hR
      have he : refreshChecksAndIssue cfg db t stored user nowMs =
          .error "Refresh token is invalid or revoked" := by
        unfold refreshChecksAndIssue
        rw [if_pos hR]
      rw [hc, he]
      exact ⟨rfl, by decide⟩
    · intro hR hexp
      have he : refreshChecksAndIssue cfg db t stored user nowMs =
          .error "Refresh token expired" := by
        unfold refreshChecksAndIssue
        rw [if_neg (by simp [hR]), if_pos hexp]
      rw [hc, he]
      exact ⟨rfl, by decide⟩
    · intro hR hexp hact
      have he : refreshChecksAndIssue cfg db t stored user nowMs =
          .error "User account is disabled" := by
        unfold refreshChecksAndIssue
        rw [if_neg (by simp [hR]), if_neg hexp, if_pos hact]
      rw [hc, he]
      exact ⟨rfl, by decide⟩

/-- C3 witness: a live, unexpired row owned by a disabled user fails the
concrete `refreshTokens` call with the `AccountDisabled` kind, after the
revoked and expiry checks passed. -/
theorem refresh_error_priority_witness :
    refreshTokens cfgEx dbDisabledEx rtDisabledEx 1000 =
      .error "User account is disabled" ∧
    resultKind (refreshTokens cfgEx dbDisabledEx rtDisabledEx 1000) =
      some ErrKind.accountDisabled :=
  ((refresh_error_priority cfgEx dbDisabledEx rtDisabledEx 1000 rtDisabledEx.payload
      (by decide)).2 rowDisabledEx userDisabledEx (by decide)).2.2
    (by decide) (by decide) (by decide)

/-- C5: the three credential-failure causes of `login` — unknown email,
OAuth-only account without a password hash, and hash mismatch — all throw
the identical generic message (the `InvalidCredentials` kind), and the
`isActive` / `emailVerified` checks run only after credential validation:
a wrong password yields `InvalidCredentials` regardless of the account's
active or verified state. -/
theorem login_error_discipline (cfg : Config) (db : Db) (email password : String)
    (ua ip : Option String) (nowMs : Nat) :
    (db.users.find? (fun u => u.email == jsToLowerCase email) = none →
      login cfg db email password ua ip nowMs = .error "Invalid email or password") ∧
    (∀ user, db.users.find? (fun u => u.email == jsToLowerCase email) = some user →
      (user.password = none →
        login cfg db email password ua ip nowMs = .error "Invalid email or password") ∧
      (∀ hash, user.password = some hash → bcryptCompare password hash = false →
        login cfg db email password ua ip nowMs = .error "Invalid email or password") ∧
      (∀ hash, user.password = some hash → bcryptCompare password hash = true →
        user.isActive = false →
        login cfg db email password ua ip nowMs = .error "Your account has been disabled") ∧
      (∀ hash, user.password = some hash → bcryptCompare password hash = true →
        user.isActive = true → user.emailVerified = false →
        login cfg db email password ua ip nowMs =
          .error "Please verify your email address before signing in")) ∧
    errKindOfMessage "Invalid email or password" = some ErrKind.invalidCredentials ∧
    errKindOfMessage "Your account has been disabled" = some ErrKind.accountDisabled ∧
    errKindOfMessage "Please verify your email address before signing in" =
      some ErrKind.emailNotVerified := by
  refine ⟨?_, ?_, by decide, by decide, by decide⟩
  · intro hf
    unfold login
    rw [hf]
  · intro user hf
    refine ⟨?_, ?_, ?_, ?_⟩
    · intro hp
      unfold login
      rw [hf]
      dsimp only
      rw [hp]
    · intro hash hp hcmp
      unfold login
      rw [hf]
      dsimp only
      rw [hp]
      dsimp only
      rw [if_pos hcmp]
    · intro hash hp hcmp hact
      unfold login
      rw [hf]
      dsimp only
      rw [hp]
      dsimp only
      rw [if_neg (by simp [hcmp]), if_pos hact]
    · intro hash hp hcmp hact hver
      unfold login
      rw [hf]
      dsimp only
      rw [hp]
      dsimp only
      rw [if_neg (by simp [hcmp]), if_neg (by simp [hact]), if_pos hver]

/-- C5 witness: a wrong password against the *disabled* account `u2` still
yields the generic credential error, not `AccountDisabled`. -/
theorem login_error_discipline_witness :
    login cfgEx dbLoginEx "u2@example.com" "WRONG" none none 1000 =
      .error "Invalid email or password" :=
  (((login_error_discipline cfgEx dbLoginEx "u2@example.com" "WRONG" none none 1000).2.1
      userDisabledEx (by decide)).2.1) (bcryptHash "pw2") (by decide) (by decide)

/-- C6: cross-type rejection. For every payload and every verification
time, `verifyAccessToken` fails (with the `InvalidToken` kind) on any token
minted by `generateRefreshToken`, and `verifyRefreshToken` fails on any
token minted by `generateAccessToken`; the generators stamp the explicit
`type` claim and sign with the respective distinct config secret. -/
theorem cross_type_rejection (cfg : Config) (base : BasePayload) (nowSec verSec : Nat) :
    resultKind (verifyAccessToken cfg (generateRefreshToken cfg base nowSec) verSec) =
      some ErrKind.invalidToken ∧
    resultKind (verifyRefreshToken cfg (generateAccessToken cfg base nowSec) verSec) =
      some ErrKind.invalidToken ∧
    (generateAccessToken cfg base nowSec).payload.type = TokenType.access ∧
    (generateRefreshToken cfg base nowSec).payload.type = TokenType.refresh ∧
    (generateAccessToken cfg base nowSec).secret = cfg.accessSecret ∧
    (generateRefreshToken cfg base nowSec).secret = cfg.refreshSecret := by
  refine ⟨?_, ?_, rfl, rfl, rfl, rfl⟩
  · cases hr : verifyAccessToken cfg (generateRefreshToken cfg base nowSec) verSec with
    | error m =>
        rcases verifyAccessToken_error_msg _ _ _ _ hr with rfl | rfl <;> decide
    | ok p =>
        exfalso
        have h5 := (verifyAccessToken_ok _ _ _ _ hr).2.2.2.2.1
        simp [generateRefreshToken] at h5
  · cases hr : verifyRefreshToken cfg (generateAccessToken cfg base nowSec) verSec with
    | error m =>
        rcases verifyRefreshToken_error_msg _ _ _ _ hr with rfl | rfl <;> decide
    | ok p =>
        exfalso
        have h5 := (verifyRefreshToken_ok _ _ _ _ hr).2.2.2.2.1
        simp [generateAccessToken] at h5

/-- C7: the effective permission set computed at login, at token refresh
and in the permission middleware is the deduplicated union of the
permission names of the user's roles and the user's directly granted
permission names — order-independent set equality, each name counted
once, identical at all three sites. -/
theorem effective_permissions_union (user : User) :
    (loginAllPermissions user).toFinset =
      (user.roles.flatMap (fun role => role.permissions.map (fun p => p.name))).toFinset ∪
        (user.permissions.map (fun p => p.name)).toFinset ∧
    (loginAllPermissions user).Nodup ∧
    refreshAllPermissions user = loginAllPermissions user ∧
    middlewareAllPermissions user = loginAllPermissions user := by
  refine ⟨?_, jsSetArray_nodup _, rfl, rfl⟩
  show (jsSetArray _).toFinset = _
  rw [jsSetArray_toFinset, List.toFinset_append]

/-- C8: after `revokeAllUserTokens(userId)` — called directly or at the
end of a successful `changePassword` — every refresh token whose stored
rows belong to that user fails `refreshTokens` with the `InvalidToken`
kind, at any time. -/
theorem revoke_all_invalidates (cfg : Config) (db db' : Db) (uid : String) (t : Token)
    (nowMs : Nat)
    (hbelong : ∀ r ∈ db.refreshTokens, r.token = t → r.userId = uid)
    (hdb' : db' = revokeAllUserTokens db uid ∨
      ∃ cur new, changePassword db uid cur new = .ok db') :
    resultKind (refreshTokens cfg db' t nowMs) = some ErrKind.invalidToken := by
  have hrev : ∀ r ∈ db'.refreshTokens, r.token = t → r.isRevoked = true := by
    rcases hdb' with rfl | ⟨cur, new, hcp⟩
    · exact revokeAllUserTokens_token_revoked db uid t hbelong
    · obtain rfl := changePassword_ok db uid cur new db' hcp
      exact revokeAllUserTokens_token_revoked
        (updateUserPassword db uid (bcryptHash new)) uid t hbelong
  exact refreshTokens_allRevoked cfg db' t nowMs hrev

/-- C8 witness: `rtEx`, live and unexpired in `dbEx`, fails with the
`InvalidToken` kind after `revokeAllUserTokens dbEx "u1"`. -/
theorem revoke_all_invalidates_witness :
    resultKind (refreshTokens cfgEx (revokeAllUserTokens dbEx "u1") rtEx 1500) =
      some ErrKind.invalidToken :=
  revoke_all_invalidates cfgEx dbEx (revokeAllUserTokens dbEx "u1") "u1" rtEx 1500
    (by decide) (Or.inl rfl)

/-- C9: every `RefreshToken` row `generateTokenPair` creates carries the
just-minted refresh token and an `expiresAt` equal to that token's own
decoded `exp` claim converted from seconds to a millisecond timestamp; in
particular the row-expiry invariant is preserved. -/
theorem stored_row_expiry (cfg : Config) (db : Db) (userId email : String)
    (roles permissions : List String) (ua ip : Option String) (nowMs : Nat)
    (toks : JWTTokens) (db' : Db)
    (h : generateTokenPair cfg db userId email roles permissions ua ip nowMs =
      .ok (toks, db')) :
    (∀ r ∈ db'.refreshTokens, r ∉ db.refreshTokens →
      r.token = toks.refreshToken ∧ r.expiresAt = jwtDecodeExp r.token * 1000) ∧
    ((∀ r ∈ db.refreshTokens, r.expiresAt = jwtDecodeExp r.token * 1000) →
      ∀ r ∈ db'.refreshTokens, r.expiresAt = jwtDecodeExp r.token * 1000) := by
  have hrows :=
    (generateTokenPair_ok cfg db userId email roles permissions ua ip nowMs toks db' h).2.2
  constructor
  · intro r hr hnew
    rw [hrows] at hr
    rcases List.mem_append.mp hr with hold | hnewrow
    · exact absurd hold hnew
    · rw [List.mem_singleton] at hnewrow
      subst hnewrow
      exact ⟨rfl, rfl⟩
  · intro hinv r hr
    rw [hrows] at hr
    rcases List.mem_append.mp hr with hold | hnewrow
    · exact hinv r hold
    · rw [List.mem_singleton] at hnewrow
      subst hnewrow
      rfl

/-- C9 witness: the concrete pair minted at time 0 stores exactly `rowEx`,
whose `expiresAt` is its token's `exp` claim times 1000. -/
theorem stored_row_expiry_witness :
    rowEx.token = toksEx0.refreshToken ∧
    rowEx.expiresAt = jwtDecodeExp rowEx.token * 1000 :=
  (stored_row_expiry cfgEx dbEmptyEx "u1" "u1@example.com" ["user"] ["read"] none none 0
      toksEx0 dbEx (by decide)).1 rowEx (by decide) (by decide)

/-- C10: the blacklist check fails open. If the blacklist-store lookup
throws, `isTokenBlacklisted` returns `false`; `authenticate` then behaves
exactly as with an empty blacklist, so a token the working store would
report blacklisted (third conjunct) is admitted when the store errors
(fourth conjunct) — a blacklist-store failure never by itself rejects a
request. -/
theorem blacklist_fails_open (cfg : Config) (db : Db) (e : String) (tok : Option Token)
    (nowMs : Nat) :
    isTokenBlacklisted (Except.error e) nowMs = false ∧
    authenticate cfg db (Except.error e) tok nowMs =
      authenticate cfg db (Except.ok none) tok nowMs ∧
    authenticate cfgEx dbEx (Except.ok (some blRowEx)) (some atEx) 1000 =
      .error "Token is invalid" ∧
    authenticate cfgEx dbEx (Except.error "store down") (some atEx) 1000 = .ok userEx := by
  refine ⟨rfl, ?_, by decide, by decide⟩
  cases tok <;> rfl

end AuthCore
